import Mathlib

/-!
Verification of the nRF 802.15.4 radio driver finite state machine
(`src/third_party/NordicSemiconductor/drivers/radio/nrf_drv_radio802154_fsm.h`).

The repository contains only the FSM's header: the `radio_state_t` enumeration
and the declarations (with doc comments) of the request, notification and IRQ
entry points.  The implementation file `nrf_drv_radio802154_fsm.c` is not part
of the sources, so every behavioural definition below is modelled from the
specification (and from the header's own doc comments); each such definition
carries a doc comment starting with `Modelled from the spec:`.
-/

namespace Radio802154

/-- States of the nRF 802.15.4 driver, translated from the `radio_state_t`
enumeration in `nrf_drv_radio802154_fsm.h` (lines 52-78).  The comment
grouping of the enumeration splits the thirteen values into the families
Sleep, Receive, Transmit, EnergyDetection, CCA and ContinuousCarrier. -/
inductive radio_state_t where
  | RADIO_STATE_DISABLING           -- Entering low power (DISABLED) mode
  | RADIO_STATE_SLEEP               -- Low power (DISABLED) mode
  | RADIO_STATE_WAITING_TIMESLOT    -- Radio is inactive due to denied time slot
  | RADIO_STATE_WAITING_RX_FRAME    -- Waiting for frame in receiver mode
  | RADIO_STATE_RX_HEADER           -- Received SFD, receiving MAC header
  | RADIO_STATE_RX_FRAME            -- Received MAC destination address, receiving rest
  | RADIO_STATE_TX_ACK              -- Received frame and transmitting ACK
  | RADIO_STATE_CCA_BEFORE_TX       -- Performing CCA prior to transmission
  | RADIO_STATE_TX_FRAME            -- Transmitting data frame (or beacon)
  | RADIO_STATE_RX_ACK              -- Receiving ACK after transmitted frame
  | RADIO_STATE_ED                  -- Performing Energy Detection procedure
  | RADIO_STATE_CCA                 -- Performing CCA procedure
  | RADIO_STATE_CONTINUOUS_CARRIER  -- Emitting continuous carrier wave
deriving DecidableEq, Repr

open radio_state_t

/-- Sleep family of states, per the `// Sleep` comment group of `radio_state_t`. -/
def sleepFamily : radio_state_t → Bool
  | RADIO_STATE_DISABLING => true
  | RADIO_STATE_SLEEP => true
  | _ => false

/-- Receive family of states, per the `// Receive` comment group of `radio_state_t`. -/
def receiveFamily : radio_state_t → Bool
  | RADIO_STATE_WAITING_TIMESLOT => true
  | RADIO_STATE_WAITING_RX_FRAME => true
  | RADIO_STATE_RX_HEADER => true
  | RADIO_STATE_RX_FRAME => true
  | RADIO_STATE_TX_ACK => true
  | _ => false

/-- Transmit family of states, per the `// Transmit` comment group of `radio_state_t`. -/
def transmitFamily : radio_state_t → Bool
  | RADIO_STATE_CCA_BEFORE_TX => true
  | RADIO_STATE_TX_FRAME => true
  | RADIO_STATE_RX_ACK => true
  | _ => false

/-- One receive-buffer slot of the buffer pool (`rx_buffer_t`); only its
occupancy is relevant to the FSM: `free = true` means the slot is FREE,
`free = false` means it is OCCUPIED-BY-CLIENT. -/
structure rx_buffer_t where
  free : Bool
deriving DecidableEq, Repr

/-- Modelled from the spec: the ephemeral `TransmitRequest` value carrying the
frame to send and the CCA-required flag (spec section 3); the concrete record
lives in the missing `nrf_drv_radio802154_fsm.c`. -/
structure TransmitRequest where
  frame : List Nat
  cca : Bool
deriving DecidableEq, Repr

/-- Modelled from the spec: the `PendingProcedure` record of latent request
parameters (spec section 3), created when receive cannot arm because no buffer
is free or the time slot is denied; the concrete record lives in the missing
`nrf_drv_radio802154_fsm.c`.  The claims exercise only the Receive variant. -/
inductive PendingProcedure where
  | Receive
deriving DecidableEq, Repr

/-- Modelled from the spec: the observable driver state of the missing
`nrf_drv_radio802154_fsm.c` — the single `RadioState` variable of record, the
pending-procedure record, the recorded transmit request, the buffer pool
occupancy, whether the time-slot arbiter currently grants radio access, and
the bytes of the caller's outgoing frame buffer (the memory behind the
`const uint8_t * p_data` pointer of `nrf_drv_radio802154_fsm_transmit`). -/
structure DriverState where
  state : radio_state_t
  pending : Option PendingProcedure
  tx_request : Option TransmitRequest
  buffers : List rx_buffer_t
  timeslot_granted : Bool
  caller_frame : List Nat
  ed_time_us : Nat
deriving DecidableEq, Repr

/-- True when some slot of the buffer pool is FREE. -/
def bufferAvailable (σ : DriverState) : Bool :=
  σ.buffers.any (fun b => b.free)

/-- Modelled from the spec: the receive arming sequence of the missing
`nrf_drv_radio802154_fsm.c` (spec section 4.1, Receive).  It attempts to
acquire a free buffer slot; if none is free it records
`PendingProcedure.Receive` and leaves the state at `WAITING_RX_FRAME`
armed-but-unbuffered.  Otherwise it requests the time slot; if denied it
transitions to `WAITING_TIMESLOT` keeping the latent receive; on success it
arms the receiver and sets `WAITING_RX_FRAME`. -/
def arm_receive (σ : DriverState) : DriverState :=
  if bufferAvailable σ then
    if σ.timeslot_granted then
      { σ with state := RADIO_STATE_WAITING_RX_FRAME, pending := none }
    else
      { σ with state := RADIO_STATE_WAITING_TIMESLOT, pending := some PendingProcedure.Receive }
  else
    { σ with state := RADIO_STATE_WAITING_RX_FRAME, pending := some PendingProcedure.Receive }

/-- Modelled from the spec: `nrf_drv_radio802154_fsm_sleep` of the missing
`nrf_drv_radio802154_fsm.c`.  Legal only from a Receive-family state (spec
section 4.1, Sleep; header doc: "shall be called when the driver is in
RECEIVE state"); it then disables reception, passing through `DISABLING` and
reaching `SLEEP` synchronously (the spec's instant-disable case), so the
state observable at the call boundary is `SLEEP`.  From any other state it
fails and mutates nothing. -/
def fsm_sleep (σ : DriverState) : Bool × DriverState :=
  if receiveFamily σ.state then
    (true, { σ with state := RADIO_STATE_SLEEP })
  else
    (false, σ)

/-- Modelled from the spec: `nrf_drv_radio802154_fsm_receive` of the missing
`nrf_drv_radio802154_fsm.c`.  Legal from `SLEEP` or a Transmit-family state
(header doc: "shall be called when the driver is in SLEEP or TRANSMIT
state"); on a legal call it runs the receive arming sequence.  From any
other state it fails and mutates nothing. -/
def fsm_receive (σ : DriverState) : Bool × DriverState :=
  if σ.state = RADIO_STATE_SLEEP || transmitFamily σ.state then
    (true, arm_receive σ)
  else
    (false, σ)

/-- Modelled from the spec: `nrf_drv_radio802154_fsm_transmit` of the missing
`nrf_drv_radio802154_fsm.c`.  The frame argument is a `const uint8_t *`
pointer into the caller's buffer, modelled as reading `σ.caller_frame`.
Legal only from a Receive-family state (spec section 4.1, Transmit); it
records a `TransmitRequest` and transitions to `CCA_BEFORE_TX` when CCA is
requested, else directly arms transmission and sets `TX_FRAME`.  From any
other state it fails and mutates nothing. -/
def fsm_transmit (σ : DriverState) (cca : Bool) : Bool × DriverState :=
  if receiveFamily σ.state then
    (true, { σ with
              tx_request := some { frame := σ.caller_frame, cca := cca },
              state := if cca then RADIO_STATE_CCA_BEFORE_TX else RADIO_STATE_TX_FRAME })
  else
    (false, σ)

/-- Modelled from the spec: `nrf_drv_radio802154_fsm_energy_detection` of the
missing `nrf_drv_radio802154_fsm.c`.  Legal from `SLEEP` or a Receive-family
state (spec section 4.1, EnergyDetection); it arms the hardware for at least
`time_us` microseconds and sets `ED`.  From any other state it fails and
mutates nothing. -/
def fsm_energy_detection (σ : DriverState) (time_us : Nat) : Bool × DriverState :=
  if σ.state = RADIO_STATE_SLEEP || receiveFamily σ.state then
    (true, { σ with state := RADIO_STATE_ED, ed_time_us := time_us })
  else
    (false, σ)

/-- Modelled from the spec: `nrf_drv_radio802154_fsm_cca` of the missing
`nrf_drv_radio802154_fsm.c`.  Legal from `SLEEP` or a Receive-family state
(spec section 4.1, CCA); it arms a single CCA sample and sets `CCA`.
From any other state it fails and mutates nothing. -/
def fsm_cca (σ : DriverState) : Bool × DriverState :=
  if σ.state = RADIO_STATE_SLEEP || receiveFamily σ.state then
    (true, { σ with state := RADIO_STATE_CCA })
  else
    (false, σ)

/-- Modelled from the spec: `nrf_drv_radio802154_fsm_continuous_carrier` of
the missing `nrf_drv_radio802154_fsm.c`.  Legal from `SLEEP` or a
Receive-family state (spec section 4.1, ContinuousCarrier); it arms
continuous emission and sets `CONTINUOUS_CARRIER`.  From any other state it
fails and mutates nothing. -/
def fsm_continuous_carrier (σ : DriverState) : Bool × DriverState :=
  if σ.state = RADIO_STATE_SLEEP || receiveFamily σ.state then
    (true, { σ with state := RADIO_STATE_CONTINUOUS_CARRIER })
  else
    (false, σ)

/-- Modelled from the spec: `nrf_drv_radio802154_fsm_notify_buffer_free` of
the missing `nrf_drv_radio802154_fsm.c` (spec section 4.3, Buffer-free).
The freed slot (identified here by its index in the pool) becomes FREE; if a
`PendingProcedure.Receive` is latent because of buffer exhaustion the FSM
re-attempts arming, otherwise the notification is a no-op beyond the slot
update. -/
def fsm_notify_buffer_free (σ : DriverState) (i : Nat) : DriverState :=
  let σ' := { σ with buffers := σ.buffers.set i { free := true } }
  match σ.pending with
  | some PendingProcedure.Receive => arm_receive σ'
  | none => σ'

/-- Hardware-completion events delivered by the hardware event source (spec
section 2): the discrete, mutually exclusive events driving the sub-states of
receive and transmit, and the ED and CCA completions (spec section 4.2). -/
inductive RadioEvent where
  | FrameStart                       -- start-of-frame (SFD received)
  | HeaderComplete                   -- address-filtering-passed (header complete)
  | FrameComplete (ackRequired : Bool)  -- frame-complete, with ACK-required flag
  | RxError                          -- CRC fail, filter reject or ACK timeout on receive
  | CcaResult (clear : Bool)         -- CCA result: channel clear or busy
  | TxDone (ackRequired : Bool)      -- transmission done
  | AckReceived                      -- expected ACK frame received
  | AckTimeout                       -- bounded wait for ACK expired
  | EdResult (level : Nat)           -- energy detection completed with measured level
deriving DecidableEq, Repr

/-- Upward reports delivered to the next higher layer (spec section 6,
"Upward results"). -/
inductive Report where
  | ReceivedFrame                    -- frame-received delivery
  | TransmittedFrame (ack : Bool)    -- transmit complete (ACK received or none needed)
  | TransmitBusyError                -- CCA before transmission found channel busy
  | TransmitNoAck                    -- ACK wait timed out
  | EnergyDetected (level : Nat)     -- ED level result
  | CcaCompleted (clear : Bool)      -- CCA busy/clear result
deriving DecidableEq, Repr

/-- Modelled from the spec: the hardware-event-driven transition engine of the
missing `nrf_drv_radio802154_fsm.c` (spec section 4.2).  Receive family
progresses `WAITING_RX_FRAME → RX_HEADER → RX_FRAME → (TX_ACK|WAITING_RX_FRAME)`;
any hardware error event returns directly to the receive arming sequence.
Transmit family progresses `CCA_BEFORE_TX → TX_FRAME → (RX_ACK|RECEIVE)`; a
CCA channel-busy result aborts the transmit and reports failure upward
without re-attempting; ACK timeout reports "no ACK" and returns to
Receive-idle.  ED and CCA completions report their result upward and
transition back to the receive arming sequence.  An event with no meaning in
the current state is ignored. -/
def handle_event (σ : DriverState) (e : RadioEvent) : DriverState × List Report :=
  match σ.state, e with
  | RADIO_STATE_WAITING_RX_FRAME, RadioEvent.FrameStart =>
      ({ σ with state := RADIO_STATE_RX_HEADER }, [])
  | RADIO_STATE_RX_HEADER, RadioEvent.HeaderComplete =>
      ({ σ with state := RADIO_STATE_RX_FRAME }, [])
  | RADIO_STATE_RX_FRAME, RadioEvent.FrameComplete ackRequired =>
      if ackRequired then
        ({ σ with state := RADIO_STATE_TX_ACK }, [Report.ReceivedFrame])
      else
        (arm_receive σ, [Report.ReceivedFrame])
  | RADIO_STATE_TX_ACK, RadioEvent.TxDone _ =>
      (arm_receive σ, [])
  | RADIO_STATE_RX_HEADER, RadioEvent.RxError => (arm_receive σ, [])
  | RADIO_STATE_RX_FRAME, RadioEvent.RxError => (arm_receive σ, [])
  | RADIO_STATE_TX_ACK, RadioEvent.RxError => (arm_receive σ, [])
  | RADIO_STATE_CCA_BEFORE_TX, RadioEvent.CcaResult clear =>
      if clear then
        ({ σ with state := RADIO_STATE_TX_FRAME }, [])
      else
        (arm_receive { σ with tx_request := none }, [Report.TransmitBusyError])
  | RADIO_STATE_TX_FRAME, RadioEvent.TxDone ackRequired =>
      if ackRequired then
        ({ σ with state := RADIO_STATE_RX_ACK }, [])
      else
        (arm_receive { σ with tx_request := none }, [Report.TransmittedFrame false])
  | RADIO_STATE_RX_ACK, RadioEvent.AckReceived =>
      (arm_receive { σ with tx_request := none }, [Report.TransmittedFrame true])
  | RADIO_STATE_RX_ACK, RadioEvent.AckTimeout =>
      (arm_receive { σ with tx_request := none }, [Report.TransmitNoAck])
  | RADIO_STATE_ED, RadioEvent.EdResult level =>
      (arm_receive σ, [Report.EnergyDetected level])
  | RADIO_STATE_CCA, RadioEvent.CcaResult clear =>
      (arm_receive σ, [Report.CcaCompleted clear])
  | _, _ => (σ, [])

/-- Modelled from the spec: `nrf_drv_radio802154_fsm_irq_handler` of the
missing `nrf_drv_radio802154_fsm.c` — the fallback IRQ pump (spec section
4.4), whose sole contract is to drain and dispatch all pending hardware
events now, with no side effects beyond what the event-driven path would
have produced.  It dispatches the queued events in arrival order through
the transition engine and collects the upward reports. -/
def fsm_irq_handler (σ : DriverState) : List RadioEvent → DriverState × List Report
  | [] => (σ, [])
  | e :: rest =>
      let r := handle_event σ e
      let rs := fsm_irq_handler r.1 rest
      (rs.1, r.2 ++ rs.2)

/-- One delivery on the interrupt-driven event path: the arriving hardware
event is handed to the transition engine and its upward reports are appended
to those already delivered. -/
def interrupt_step (a : DriverState × List Report) (e : RadioEvent) : DriverState × List Report :=
  ((handle_event a.1 e).1, a.2 ++ (handle_event a.1 e).2)

/-- The interrupt-driven event path: each hardware event is delivered to the
transition engine at the moment it arrives, so a sequence of events is a
left fold of single deliveries accumulating the upward reports. -/
def interrupt_path (σ : DriverState) (events : List RadioEvent) : DriverState × List Report :=
  events.foldl interrupt_step (σ, [])

/-- The sequence of states a boundary observer of `handle_event` sees while an
event list is dispatched, starting from `σ`. -/
def states_visited (σ : DriverState) : List RadioEvent → List radio_state_t
  | [] => [σ.state]
  | e :: rest => σ.state :: states_visited (handle_event σ e).1 rest

/-- A concrete driver state: idle in receive mode with one free buffer and a
granted time slot. -/
def rxIdleState : DriverState :=
  { state := RADIO_STATE_WAITING_RX_FRAME, pending := none, tx_request := none,
    buffers := [{ free := true }], timeslot_granted := true,
    caller_frame := [1, 2, 3], ed_time_us := 0 }

/-- A concrete driver state: busy with the energy detection procedure. -/
def edBusyState : DriverState :=
  { state := RADIO_STATE_ED, pending := none, tx_request := none,
    buffers := [{ free := true }], timeslot_granted := true,
    caller_frame := [1, 2, 3], ed_time_us := 128 }

/-- A concrete driver state: sleeping, with the only buffer slot occupied by
the client. -/
def sleepNoBufferState : DriverState :=
  { state := RADIO_STATE_SLEEP, pending := none, tx_request := none,
    buffers := [{ free := false }], timeslot_granted := true,
    caller_frame := [7], ed_time_us := 0 }

/- Helper lemmas shared by the claim theorems. -/

lemma arm_receive_receiveFamily (σ : DriverState) :
    receiveFamily (arm_receive σ).state = true := by
  unfold arm_receive
  split_ifs <;> rfl

lemma arm_receive_caller_frame (σ : DriverState) :
    (arm_receive σ).caller_frame = σ.caller_frame := by
  unfold arm_receive
  split_ifs <;> rfl

lemma handle_event_caller_frame (σ : DriverState) (e : RadioEvent) :
    (handle_event σ e).1.caller_frame = σ.caller_frame := by
  cases hs : σ.state <;> cases e <;>
    simp [handle_event, hs, arm_receive_caller_frame] <;>
      split_ifs <;> simp [arm_receive_caller_frame]

lemma fsm_irq_handler_caller_frame (σ : DriverState) (events : List RadioEvent) :
    (fsm_irq_handler σ events).1.caller_frame = σ.caller_frame := by
  induction events generalizing σ with
  | nil => rfl
  | cons e rest ih => simp [fsm_irq_handler, ih, handle_event_caller_frame]

lemma any_free_after_set (l : List rx_buffer_t) (i : Nat) (h : i < l.length) :
    (l.set i { free := true }).any (fun b => b.free) = true := by
  induction l generalizing i with
  | nil => simp at h
  | cons a t ih =>
      cases i with
      | zero => simp [List.set]
      | succ n =>
          simp only [List.set, List.any_cons, Bool.or_eq_true]
          right
          exact ih n (by simpa using h)

lemma interrupt_path_foldl_acc (events : List RadioEvent) :
    ∀ (σ : DriverState) (acc : List Report),
      events.foldl interrupt_step (σ, acc)
        = ((interrupt_path σ events).1, acc ++ (interrupt_path σ events).2) := by
  induction events with
  | nil =>
      intro σ acc
      simp [interrupt_path]
  | cons e rest ih =>
      intro σ acc
      have hstep : ∀ (a : List Report),
          interrupt_step (σ, a) e = ((handle_event σ e).1, a ++ (handle_event σ e).2) :=
        fun a => rfl
      unfold interrupt_path
      simp only [List.foldl_cons, hstep, ih]
      simp [interrupt_path]

/-- C1: for every one of the 13 `radio_state_t` values and each of the six
request operations, the operation returns `true` exactly when the current
state lies in that operation's documented legal source set: sleep only from a
Receive-family state; receive from `SLEEP` or a Transmit-family state;
transmit only from a Receive-family state; energy detection, CCA and
continuous carrier from `SLEEP` or a Receive-family state. -/
theorem request_success_iff_legal_source (σ : DriverState) (cca : Bool) (t : Nat) :
    ((fsm_sleep σ).1 = true ↔ receiveFamily σ.state = true) ∧
    ((fsm_receive σ).1 = true ↔ (σ.state = RADIO_STATE_SLEEP ∨ transmitFamily σ.state = true)) ∧
    ((fsm_transmit σ cca).1 = true ↔ receiveFamily σ.state = true) ∧
    ((fsm_energy_detection σ t).1 = true ↔
      (σ.state = RADIO_STATE_SLEEP ∨ receiveFamily σ.state = true)) ∧
    ((fsm_cca σ).1 = true ↔ (σ.state = RADIO_STATE_SLEEP ∨ receiveFamily σ.state = true)) ∧
    ((fsm_continuous_carrier σ).1 = true ↔
      (σ.state = RADIO_STATE_SLEEP ∨ receiveFamily σ.state = true)) := by
  cases hs : σ.state <;>
    simp [fsm_sleep, fsm_receive, fsm_transmit, fsm_energy_detection, fsm_cca,
          fsm_continuous_carrier, receiveFamily, transmitFamily, hs]

/-- C2: for every one of the six request operations and every current driver
state, if the operation returns `false` then the whole observable driver
state (in particular the `RadioState` variable and the pending-procedure
record) is exactly what it was before the call. -/
theorem rejected_request_preserves_state (σ : DriverState) (cca : Bool) (t : Nat) :
    ((fsm_sleep σ).1 = false → (fsm_sleep σ).2 = σ) ∧
    ((fsm_receive σ).1 = false → (fsm_receive σ).2 = σ) ∧
    ((fsm_transmit σ cca).1 = false → (fsm_transmit σ cca).2 = σ) ∧
    ((fsm_energy_detection σ t).1 = false → (fsm_energy_detection σ t).2 = σ) ∧
    ((fsm_cca σ).1 = false → (fsm_cca σ).2 = σ) ∧
    ((fsm_continuous_carrier σ).1 = false → (fsm_continuous_carrier σ).2 = σ) := by
  refine ⟨?_, ?_, ?_, ?_, ?_, ?_⟩ <;>
    simp only [fsm_sleep, fsm_receive, fsm_transmit, fsm_energy_detection, fsm_cca,
               fsm_continuous_carrier] <;>
      split <;> simp

/-- Witness for C2: from the concrete busy state `edBusyState` (driver in the
`ED` state) the sleep request fails and leaves the driver state unchanged. -/
theorem rejected_request_preserves_state_witness :
    (fsm_sleep edBusyState).1 = false ∧ (fsm_sleep edBusyState).2 = edBusyState :=
  ⟨by decide, (rejected_request_preserves_state edBusyState true 0).1 (by decide)⟩

/-- C3: a transmit request issued from a Receive-family state with CCA flag
`cca` succeeds, records a `TransmitRequest` holding the caller's frame and
the flag, and sets the state to `CCA_BEFORE_TX` when `cca` is true, else to
`TX_FRAME`. -/
theorem transmit_records_request (σ : DriverState) (cca : Bool)
    (h : receiveFamily σ.state = true) :
    (fsm_transmit σ cca).1 = true ∧
    (fsm_transmit σ cca).2.tx_request = some { frame := σ.caller_frame, cca := cca } ∧
    (fsm_transmit σ cca).2.state =
      (if cca then RADIO_STATE_CCA_BEFORE_TX else RADIO_STATE_TX_FRAME) := by
  simp [fsm_transmit, h]

/-- Witness for C3: a transmit request with CCA from the concrete receive-idle
state records the request and moves to `CCA_BEFORE_TX`. -/
theorem transmit_records_request_witness :
    receiveFamily rxIdleState.state = true ∧
    ((fsm_transmit rxIdleState true).1 = true ∧
     (fsm_transmit rxIdleState true).2.tx_request
       = some { frame := rxIdleState.caller_frame, cca := true } ∧
     (fsm_transmit rxIdleState true).2.state
       = (if true then RADIO_STATE_CCA_BEFORE_TX else RADIO_STATE_TX_FRAME)) :=
  ⟨by decide, transmit_records_request rxIdleState true (by decide)⟩

/-- C4: when a transmit with CCA is requested from the receive-idle state (a
free buffer available and the time slot granted) and the hardware then
delivers a channel-busy CCA result in `CCA_BEFORE_TX`, the driver reports a
busy failure upward and returns to the receive-idle state `WAITING_RX_FRAME`,
and `TX_FRAME` is never among the states visited during that transmit
attempt. -/
theorem cca_busy_aborts_transmit (σ : DriverState)
    (hs : σ.state = RADIO_STATE_WAITING_RX_FRAME)
    (hb : bufferAvailable σ = true)
    (ht : σ.timeslot_granted = true) :
    (fsm_transmit σ true).1 = true ∧
    (handle_event (fsm_transmit σ true).2 (RadioEvent.CcaResult false)).2
      = [Report.TransmitBusyError] ∧
    (handle_event (fsm_transmit σ true).2 (RadioEvent.CcaResult false)).1.state
      = RADIO_STATE_WAITING_RX_FRAME ∧
    RADIO_STATE_TX_FRAME ∉
      σ.state :: states_visited (fsm_transmit σ true).2 [RadioEvent.CcaResult false] := by
  simp [fsm_transmit, handle_event, states_visited, arm_receive, bufferAvailable,
        hs, ht, receiveFamily] at *
  simp [handle_event, arm_receive, bufferAvailable, hb]

/-- Witness for C4: the scenario run from the concrete receive-idle state. -/
theorem cca_busy_aborts_transmit_witness :
    (rxIdleState.state = RADIO_STATE_WAITING_RX_FRAME ∧
     bufferAvailable rxIdleState = true ∧
     rxIdleState.timeslot_granted = true) ∧
    ((fsm_transmit rxIdleState true).1 = true ∧
     (handle_event (fsm_transmit rxIdleState true).2 (RadioEvent.CcaResult false)).2
       = [Report.TransmitBusyError] ∧
     (handle_event (fsm_transmit rxIdleState true).2 (RadioEvent.CcaResult false)).1.state
       = RADIO_STATE_WAITING_RX_FRAME ∧
     RADIO_STATE_TX_FRAME ∉
       rxIdleState.state ::
         states_visited (fsm_transmit rxIdleState true).2 [RadioEvent.CcaResult false]) :=
  ⟨⟨by decide, by decide, by decide⟩,
    cca_busy_aborts_transmit rxIdleState (by decide) (by decide) (by decide)⟩

/-- C5: a receive request issued from a legal source state while no buffer
slot is free succeeds, records the pending receive procedure, and a
subsequent buffer-free notification (with no additional client call)
completes arming: the state becomes `WAITING_RX_FRAME` and the pending
record is cleared. -/
theorem receive_pending_completed_by_buffer_free (σ : DriverState) (i : Nat)
    (hlegal : σ.state = RADIO_STATE_SLEEP ∨ transmitFamily σ.state = true)
    (hnobuf : bufferAvailable σ = false)
    (hgrant : σ.timeslot_granted = true)
    (hi : i < σ.buffers.length) :
    (fsm_receive σ).1 = true ∧
    (fsm_receive σ).2.pending = some PendingProcedure.Receive ∧
    (fsm_notify_buffer_free (fsm_receive σ).2 i).state = RADIO_STATE_WAITING_RX_FRAME ∧
    (fsm_notify_buffer_free (fsm_receive σ).2 i).pending = none := by
  have hr : fsm_receive σ
      = (true, { σ with state := RADIO_STATE_WAITING_RX_FRAME,
                        pending := some PendingProcedure.Receive }) := by
    rcases hlegal with h | h <;>
      simp [fsm_receive, arm_receive, h, hnobuf]
  rw [hr]
  refine ⟨rfl, rfl, ?_⟩
  simp [fsm_notify_buffer_free, arm_receive, bufferAvailable, hgrant,
        any_free_after_set σ.buffers i hi]

/-- Witness for C5: from the concrete sleeping state whose only buffer slot is
occupied, a receive request leaves a pending receive and freeing slot 0
completes arming into `WAITING_RX_FRAME`. -/
theorem receive_pending_completed_by_buffer_free_witness :
    (sleepNoBufferState.state = RADIO_STATE_SLEEP ∨
      transmitFamily sleepNoBufferState.state = true) ∧
    bufferAvailable sleepNoBufferState = false ∧
    sleepNoBufferState.timeslot_granted = true ∧
    0 < sleepNoBufferState.buffers.length ∧
    ((fsm_receive sleepNoBufferState).1 = true ∧
     (fsm_receive sleepNoBufferState).2.pending = some PendingProcedure.Receive ∧
     (fsm_notify_buffer_free (fsm_receive sleepNoBufferState).2 0).state
       = RADIO_STATE_WAITING_RX_FRAME ∧
     (fsm_notify_buffer_free (fsm_receive sleepNoBufferState).2 0).pending = none) :=
  ⟨by decide, by decide, by decide, by decide,
    receive_pending_completed_by_buffer_free sleepNoBufferState 0
      (by decide) (by decide) (by decide) (by decide)⟩

/-- C7: the buffer-free notification is idempotent — for every driver state,
delivering the notification again for a slot that the first delivery already
made FREE and accounted for leaves the observable driver state identical to
the state after the first delivery. -/
theorem notify_buffer_free_idempotent (σ : DriverState) (i : Nat) :
    fsm_notify_buffer_free (fsm_notify_buffer_free σ i) i = fsm_notify_buffer_free σ i := by
  obtain ⟨s, p, tx, bufs, ts, cf, ed⟩ := σ
  cases p with
  | none => simp [fsm_notify_buffer_free, List.set_set]
  | some pp =>
      cases pp
      by_cases hb : (bufs.set i { free := true }).any (fun b => b.free) = true <;>
        by_cases hts : ts = true <;>
          simp [fsm_notify_buffer_free, arm_receive, bufferAvailable, hb, hts,
                List.set_set]

/-- C8: when the hardware signals completion of a successfully started energy
detection (state `ED`), the driver reports the detected energy level upward
and transitions back to receive by re-entering the receive arming sequence,
landing in a Receive-family state. -/
theorem ed_completion_reports_level_and_receives (σ : DriverState) (level : Nat)
    (h : σ.state = RADIO_STATE_ED) :
    (handle_event σ (RadioEvent.EdResult level)).2 = [Report.EnergyDetected level] ∧
    (handle_event σ (RadioEvent.EdResult level)).1 = arm_receive σ ∧
    receiveFamily (handle_event σ (RadioEvent.EdResult level)).1.state = true := by
  refine ⟨?_, ?_, ?_⟩ <;> simp [handle_event, h, arm_receive_receiveFamily]

/-- Witness for C8: ED completion with level 42 from the concrete busy state
reports the level and lands back in a Receive-family state. -/
theorem ed_completion_reports_level_and_receives_witness :
    edBusyState.state = RADIO_STATE_ED ∧
    ((handle_event edBusyState (RadioEvent.EdResult 42)).2
       = [Report.EnergyDetected 42] ∧
     (handle_event edBusyState (RadioEvent.EdResult 42)).1 = arm_receive edBusyState ∧
     receiveFamily (handle_event edBusyState (RadioEvent.EdResult 42)).1.state = true) :=
  ⟨by decide, ed_completion_reports_level_and_receives edBusyState 42 (by decide)⟩

/-- C6 counterexample: from the concrete receive-idle state a
continuous-carrier request succeeds and sets `CONTINUOUS_CARRIER`, but the
immediately following sleep request does not succeed and the state does not
become `SLEEP` — sleep is legal only from Receive-family states, so the
claimed `CONTINUOUS_CARRIER → SLEEP` transition never happens. -/
theorem continuous_carrier_then_sleep_fails :
    (fsm_continuous_carrier rxIdleState).1 = true ∧
    (fsm_continuous_carrier rxIdleState).2.state = RADIO_STATE_CONTINUOUS_CARRIER ∧
    (fsm_sleep (fsm_continuous_carrier rxIdleState).2).1 = false ∧
    (fsm_sleep (fsm_continuous_carrier rxIdleState).2).2.state ≠ RADIO_STATE_SLEEP := by
  decide

/-- C6 (amended): a continuous-carrier request from `SLEEP` or a
Receive-family state succeeds and sets the state to `CONTINUOUS_CARRIER`; an
immediately following sleep request is rejected (returns `false`) and leaves
the driver state unchanged at `CONTINUOUS_CARRIER`, because sleep is legal
only from Receive-family states; a caller reading the state only at call
boundaries observes no intermediate state. -/
theorem continuous_carrier_then_sleep_rejected (σ : DriverState)
    (h : σ.state = RADIO_STATE_SLEEP ∨ receiveFamily σ.state = true) :
    (fsm_continuous_carrier σ).1 = true ∧
    (fsm_continuous_carrier σ).2.state = RADIO_STATE_CONTINUOUS_CARRIER ∧
    (fsm_sleep (fsm_continuous_carrier σ).2).1 = false ∧
    (fsm_sleep (fsm_continuous_carrier σ).2).2 = (fsm_continuous_carrier σ).2 := by
  have hc : fsm_continuous_carrier σ
      = (true, { σ with state := RADIO_STATE_CONTINUOUS_CARRIER }) := by
    rcases h with h | h <;> simp [fsm_continuous_carrier, h]
  rw [hc]
  refine ⟨rfl, rfl, ?_, ?_⟩ <;> simp [fsm_sleep, receiveFamily]

/-- Witness for the amended C6: the sequence run from the concrete
receive-idle state. -/
theorem continuous_carrier_then_sleep_rejected_witness :
    (rxIdleState.state = RADIO_STATE_SLEEP ∨ receiveFamily rxIdleState.state = true) ∧
    ((fsm_continuous_carrier rxIdleState).1 = true ∧
     (fsm_continuous_carrier rxIdleState).2.state = RADIO_STATE_CONTINUOUS_CARRIER ∧
     (fsm_sleep (fsm_continuous_carrier rxIdleState).2).1 = false ∧
     (fsm_sleep (fsm_continuous_carrier rxIdleState).2).2
       = (fsm_continuous_carrier rxIdleState).2) :=
  ⟨by decide, continuous_carrier_then_sleep_rejected rxIdleState (by decide)⟩

/-- C9: for every driver state and every sequence of pending hardware events,
the fallback IRQ pump (drain and dispatch all pending events) produces
exactly the driver state and the upward reports that delivering the same
events one by one through the interrupt-driven event path produces — it has
no side effects beyond that. -/
theorem irq_pump_equals_interrupt_path (σ : DriverState) (events : List RadioEvent) :
    fsm_irq_handler σ events = interrupt_path σ events := by
  induction events generalizing σ with
  | nil =>
      simp [fsm_irq_handler, interrupt_path]
  | cons e rest ih =>
      have hstep : interrupt_step (σ, []) e
          = ((handle_event σ e).1, [] ++ (handle_event σ e).2) := rfl
      unfold interrupt_path
      rw [List.foldl_cons, hstep, List.nil_append,
          interrupt_path_foldl_acc rest (handle_event σ e).1 (handle_event σ e).2]
      simp [fsm_irq_handler, ih, interrupt_path]

/-- C10: the driver never writes the caller's outgoing frame buffer (the
memory behind the `const uint8_t * p_data` argument of the transmit
request): the transmit request itself, every single hardware event and any
drained sequence of hardware events leave the caller's frame bytes
unchanged. -/
theorem caller_frame_never_written (σ : DriverState) (cca : Bool)
    (e : RadioEvent) (events : List RadioEvent) :
    (fsm_transmit σ cca).2.caller_frame = σ.caller_frame ∧
    (handle_event σ e).1.caller_frame = σ.caller_frame ∧
    (fsm_irq_handler σ events).1.caller_frame = σ.caller_frame := by
  refine ⟨?_, handle_event_caller_frame σ e, fsm_irq_handler_caller_frame σ events⟩
  simp only [fsm_transmit]
  split <;> rfl

end Radio802154
